import Mathlib

/-!
Shallow embedding of the query-safety and execution pipeline of the
`data_agent` package (files `data_agent/bq.py`, `data_agent/nl2sql.py`,
`data_agent/nl2py.py`).

Python strings are embedded as Lean `String`; the handful of `str`
operations the source uses (`lower`, `upper`, `strip`, `startswith`,
`in`, `replace`) are defined below with Python's semantics.  Python
scalar values are embedded as `PyVal`; Python dicts whose keys are
strings as association lists (`PyRow`).  The remote BigQuery client is
an oracle function supplied as a parameter; a Python exception escaping
a function is embedded as `Except.error`, while a caught-and-converted
error becomes an ordinary return value.
-/

namespace DataAgent

/-- Python `str.lower()`: character-wise lower-casing. -/
def pyLower (s : String) : String := String.mk (s.data.map Char.toLower)

/-- Python `str.upper()`: character-wise upper-casing. -/
def pyUpper (s : String) : String := String.mk (s.data.map Char.toUpper)

/-- Leading and trailing whitespace removal on a character list. -/
def stripChars (l : List Char) : List Char :=
  (((l.dropWhile Char.isWhitespace).reverse).dropWhile Char.isWhitespace).reverse

/-- Python `str.strip()` with no argument: trim whitespace at both ends. -/
def pyStrip (s : String) : String := String.mk (stripChars s.data)

/-- Python `str.startswith(pre)`. -/
def pyStartsWith (s pre : String) : Bool := pre.data.isPrefixOf s.data

/-- Occurrence of `pat` as a contiguous infix of `s` (Python `pat in s`).
An empty pattern occurs in every string, as in Python. -/
def containsChars (s pat : List Char) : Bool :=
  match s with
  | [] => pat.isEmpty
  | c :: t => pat.isPrefixOf (c :: t) || containsChars t pat

/-- Python `sub in s` for strings. -/
def pyContains (s sub : String) : Bool := containsChars s.data sub.data

/-- Python `str.replace(old, new)` on character lists: scan left to right,
replace non-overlapping occurrences, never rescanning replacement text.
Structured with a fuel argument (one unit per consumed head character) so
the recursion is structural; every step consumes at least one character of
the scanned list, so `fuel = s.length` never runs out before the list does. -/
def replaceFuel (old new : List Char) : Nat → List Char → List Char
  | _, [] => []
  | 0, s => s
  | fuel + 1, c :: t =>
    if old ≠ [] ∧ old.isPrefixOf (c :: t) then
      new ++ replaceFuel old new fuel (t.drop (old.length - 1))
    else
      c :: replaceFuel old new fuel t

/-- Python `str.replace(old, new)` on character lists. -/
def replaceChars (s old new : List Char) : List Char :=
  replaceFuel old new s.length s

/-- Python `s.replace(old, new)` for strings (our call sites never pass an
empty `old`). -/
def pyReplace (s old new : String) : String :=
  String.mk (replaceChars s.data old.data new.data)

/-- Python scalar values as they occur in the embedded code.  The payload of
a floating-point value is irrelevant to every control-flow decision in the
source (floats are only classified by `isinstance` and forwarded), so the
constructor carries none. -/
inductive PyVal where
  | pyNone
  | pyBool (b : Bool)
  | pyInt (n : Int)
  | pyFloat
  | pyStr (s : String)
deriving DecidableEq

/-- Python truthiness (`if not t:`) for the values above. -/
def pyTruthy : PyVal → Bool
  | .pyNone => false
  | .pyBool b => b
  | .pyInt n => n != 0
  | .pyFloat => true
  | .pyStr s => s != ""

/-- Python `str(v)` as used by f-string interpolation in the source. -/
def pyFormat : PyVal → String
  | .pyNone => "None"
  | .pyBool b => if b then "True" else "False"
  | .pyInt n => toString n
  | .pyFloat => "<float>"
  | .pyStr s => s

/-- A Python dict with string keys, e.g. a result row mapping column names
to values. -/
abbrev PyRow := List (String × PyVal)

/-- Python `d.get(k)`: `none` models the absent-key `None` default. -/
def pyGet (r : PyRow) (k : String) : Option PyVal :=
  (r.find? fun p => p.1 == k).map (·.2)

/-- Python `d[k]` at call sites where the source guarantees the key is
present (keys produced by the very query being read); an absent key is
mapped to `None` rather than modelling the `KeyError`. -/
def pyGetD (r : PyRow) (k : String) : PyVal :=
  (pyGet r k).getD PyVal.pyNone

/-- Dataset scope configuration (`config.BQ_PROJECT`, `config.BQ_DATASET`,
`config.ALLOW_CROSS_DATASET`), loaded once and read-only. -/
structure Scope where
  project : String
  dataset : String
  allow_cross_dataset : Bool
deriving DecidableEq

/-- Embedding of `bq._ensure_select`: `raise ValueError(...)` becomes
`Except.error` since the exception escapes the function. -/
def ensure_select (sql : String) : Except String Unit :=
  let lowered := pyLower (pyStrip sql)
  if !pyStartsWith lowered "select" then
    Except.error "Only read-only SELECT queries are allowed."
  else
    Except.ok ()

/-- Embedding of `bq._enforce_dataset`.  Note from the source: `hint_table`
and `hint_backtick_then_dot` are searched in the RAW `sql`, while
`hint_info_schema` (built from lower-cased project/dataset) is searched in
the lower-cased text. -/
def enforce_dataset (scope : Scope) (sql : String) : Except String Unit :=
  if scope.allow_cross_dataset then
    Except.ok ()
  else
    let lowered := pyLower sql
    let hint_table := "`" ++ scope.project ++ "." ++ scope.dataset ++ "."
    let hint_info_schema :=
      "`" ++ pyLower scope.project ++ "." ++ pyLower scope.dataset ++ "`.information_schema"
    if pyContains sql hint_table then
      Except.ok ()
    else if pyContains lowered hint_info_schema then
      Except.ok ()
    else
      let hint_backtick_then_dot := "`" ++ scope.project ++ "." ++ scope.dataset ++ "`."
      if pyContains sql hint_backtick_then_dot then
        Except.ok ()
      else
        Except.error ("Query must reference dataset `" ++ scope.project ++ "." ++
          scope.dataset ++ "`.")

/-- BigQuery scalar wire types used by `run_query`'s parameter typing. -/
inductive BQType where
  | BOOL
  | INT64
  | FLOAT64
  | STRING
deriving DecidableEq

/-- Python `isinstance(value, bool)`. -/
def isinstance_bool : PyVal → Bool
  | .pyBool _ => true
  | _ => false

/-- Python `isinstance(value, int)`: `bool` is a subclass of `int` in
Python, so booleans also satisfy this test. -/
def isinstance_int : PyVal → Bool
  | .pyBool _ => true
  | .pyInt _ => true
  | _ => false

/-- Python `isinstance(value, float)`. -/
def isinstance_float : PyVal → Bool
  | .pyFloat => true
  | _ => false

/-- The `isinstance` chain in `run_query`'s parameter loop, in source
order: bool, then int, then float, else string. -/
def infer_bq_type (value : PyVal) : BQType :=
  if isinstance_bool value then BQType.BOOL
  else if isinstance_int value then BQType.INT64
  else if isinstance_float value then BQType.FLOAT64
  else BQType.STRING

/-- Embedding of `bigquery.ScalarQueryParameter(name, bq_type, value)`. -/
structure ScalarQueryParameter where
  name : String
  bq_type : BQType
  value : PyVal
deriving DecidableEq

/-- The `for name, value in parameters.items()` loop of `run_query`,
building one typed named parameter per entry, in order. -/
def make_query_parameters : List (String × PyVal) → List ScalarQueryParameter
  | [] => []
  | (name, value) :: rest =>
    ⟨name, infer_bq_type value, value⟩ :: make_query_parameters rest

/-- Embedding of `bigquery.QueryJobConfig` with the three fields the source
touches, at their library defaults. -/
structure QueryJobConfig where
  dry_run : Bool := false
  use_query_cache : Bool := true
  query_parameters : List ScalarQueryParameter := []
deriving DecidableEq

/-- The job-configuration steps of `run_query`: `dry_run` sets the dry-run
flag and disables the query cache; a non-empty (truthy) `parameters` dict
attaches the typed parameter list. -/
def build_job_config (parameters : List (String × PyVal)) (dry_run : Bool) : QueryJobConfig :=
  let cfg : QueryJobConfig := {}
  let cfg := if dry_run then { cfg with dry_run := true, use_query_cache := false } else cfg
  if !parameters.isEmpty then
    { cfg with query_parameters := make_query_parameters parameters }
  else
    cfg

/-- Schema field descriptor as exposed by the client (`f.name`,
`f.field_type`, `getattr(f, "mode", None)`). -/
structure BQField where
  name : String
  field_type : String
  mode : Option String
deriving DecidableEq

/-- Outcome of `client.query(...)` followed by `job.result()`: either some
exception is raised inside the `try` block, or the job completes with a
byte estimate, a schema, result rows and a job id. -/
inductive JobOutcome where
  | raises (msg : String)
  | completes (total_bytes_processed : Int) (schema : List BQField)
      (result_rows : List PyRow) (job_id : String)

/-- The remote client as an oracle: the job outcome as a function of the
query text and the job configuration. -/
abbrev BQClient := String → QueryJobConfig → JobOutcome

/-- The result dict of `run_query`, as a tagged union of the three shapes
it builds: `status=success` with rows, `status=success` with `dry_run`,
and `status=error`. -/
inductive QueryResult where
  | success (rows : List PyRow) (num_rows : Nat)
      (schema : List (String × String × Option String)) (job_id : String) (sql : String)
  | drySuccess (total_bytes_processed : Int) (sql : String)
  | failure (error_message : String) (sql : String)
deriving DecidableEq

/-- Row materialization in `run_query`: for each result row, the dict
comprehension `{k: row[k] for k in field_names}` over the schema's field
names, preserving row order and column order. -/
def materialize (schema : List BQField) (result_rows : List PyRow) : List PyRow :=
  let field_names := schema.map (·.name)
  result_rows.map fun row => field_names.map fun k => (k, pyGetD row k)

/-- Embedding of `bq.run_query`.  The two validators run BEFORE the
`try` block, so their `ValueError`s escape as `Except.error`; everything
raised by the client inside the `try` is caught and converted to a
`QueryResult.failure` return value.  The `project_id`/`location`
arguments only parameterize the client connection and are absorbed into
the `client` oracle. -/
def run_query (scope : Scope) (client : BQClient) (sql : String)
    (parameters : List (String × PyVal) := []) (maximum_rows : Int := 1000)
    (dry_run : Bool := false) : Except String QueryResult :=
  match ensure_select sql with
  | Except.error e => Except.error e
  | Except.ok _ =>
    match enforce_dataset scope sql with
    | Except.error e => Except.error e
    | Except.ok _ =>
      let job_config := build_job_config parameters dry_run
      match client sql job_config with
      | JobOutcome.raises msg => Except.ok (QueryResult.failure msg sql)
      | JobOutcome.completes total_bytes schema result_rows job_id =>
        if dry_run then
          Except.ok (QueryResult.drySuccess total_bytes sql)
        else
          let rows := materialize schema result_rows
          let rows := if maximum_rows ≠ 0 ∧ maximum_rows > 0 then rows.take maximum_rows.toNat else rows
          let schema_out := schema.map fun f => (f.name, f.field_type, f.mode)
          Except.ok (QueryResult.success rows rows.length schema_out job_id sql)

/-- Python `res.get("status")` on the result dict. -/
def statusOf : QueryResult → String
  | .success _ _ _ _ _ => "success"
  | .drySuccess _ _ => "success"
  | .failure _ _ => "error"

/-- Python `res.get("rows")`: only the non-dry success dict carries a
`rows` key. -/
def rowsOf : QueryResult → Option (List PyRow)
  | .success rows _ _ _ _ => some rows
  | _ => none

/-- Python `res.get("error_message")`: present only on the error dict. -/
def errorMessageOf : QueryResult → Option String
  | .failure msg _ => some msg
  | _ => none

/-- Truthiness of `res.get("rows")`: a present, non-empty row list. -/
def hasRows (res : QueryResult) : Bool :=
  match rowsOf res with
  | some rows => !rows.isEmpty
  | none => false

/-- The `sql1` text of `table_row_counts` (INFORMATION_SCHEMA.TABLE_STORAGE). -/
def tableStorageSql (scope : Scope) : String :=
  "SELECT table_name, row_count FROM `" ++ scope.project ++ "." ++ scope.dataset ++
    "`.INFORMATION_SCHEMA.TABLE_STORAGE ORDER BY table_name"

/-- The `sql2` text of `table_row_counts` (INFORMATION_SCHEMA.PARTITIONS). -/
def partitionsSql (scope : Scope) : String :=
  "SELECT table_name, SUM(row_count) AS row_count FROM `" ++ scope.project ++ "." ++
    scope.dataset ++ "`.INFORMATION_SCHEMA.PARTITIONS GROUP BY table_name ORDER BY table_name"

/-- The query text issued by `bq.list_tables`. -/
def listTablesSql (scope : Scope) : String :=
  "SELECT table_name FROM `" ++ scope.project ++ "." ++ scope.dataset ++
    "`.INFORMATION_SCHEMA.TABLES ORDER BY table_name"

/-- The per-table `sql3` text of `table_row_counts` strategy 3. -/
def countStarSql (scope : Scope) (t : String) : String :=
  "SELECT COUNT(*) AS row_count FROM `" ++ scope.project ++ "." ++ scope.dataset ++
    "." ++ t ++ "`"

/-- One entry of the `attempts` debug list in `table_row_counts`. -/
structure Attempt where
  sql : Option String := none
  step : Option String := none
  status : Option String := none
  error : Option String := none
deriving DecidableEq

/-- The dict `attempts.append({"sql": ..., "status": ..., "error": ...})`. -/
def queryAttempt (sql : String) (res : QueryResult) : Attempt :=
  { sql := some sql, status := some (statusOf res), error := errorMessageOf res }

/-- The dict `attempts.append({"step": ..., "status": ..., "error": ...})`. -/
def stepAttempt (step : String) (res : QueryResult) : Attempt :=
  { step := some step, status := some (statusOf res), error := errorMessageOf res }

/-- The value `r3["rows"][0]["row_count"]` read in strategy 3; only
evaluated under `status == success and rows` truthy. -/
def firstRowCount (res : QueryResult) : PyVal :=
  match rowsOf res with
  | some (row :: _) => pyGetD row "row_count"
  | _ => PyVal.pyNone

/-- Return shapes of `table_row_counts`: the accepted strategy-1/2 result
dict with the debug attempts attached, the error dict built when table
listing yields nothing usable, and the fresh success dict assembled by
strategy 3. -/
inductive RowCountOutcome where
  | fromQuery (res : QueryResult) (attempts : List Attempt)
  | listingFailed (error_message : String) (attempts : List Attempt)
  | counted (rows : List PyRow) (num_rows : Nat) (attempts : List Attempt)
deriving DecidableEq

/-- The strategy-3 loop of `table_row_counts` over the listed tables:
skips falsy `table_name` values, issues one COUNT(*) query per table, and
collects a `(table_name, row_count)` row for each per-table query that
returns success with rows.  Returns the collected rows, the appended
attempts, and the issued query texts, in order. -/
def count_star_loop (scope : Scope) (runq : String → QueryResult) :
    List PyRow → List PyRow × List Attempt × List String
  | [] => ([], [], [])
  | r :: rest =>
    match pyGet r "table_name" with
    | none => count_star_loop scope runq rest
    | some tv =>
      if !pyTruthy tv then
        count_star_loop scope runq rest
      else
        let sql3 := countStarSql scope (pyFormat tv)
        let r3 := runq sql3
        let tail := count_star_loop scope runq rest
        let collected :=
          if statusOf r3 == "success" && hasRows r3 then
            [[("table_name", tv), ("row_count", firstRowCount r3)]]
          else
            []
        (collected ++ tail.1, queryAttempt sql3 r3 :: tail.2.1, sql3 :: tail.2.2)

/-- Embedding of `bq.table_row_counts`.  The `runq` oracle stands for
`run_query` over the fixed client and scope; every query text this
function constructs passes both validators for any scope (each embeds the
`` `project.dataset. `` or `` `project.dataset`. `` hint), so the
`Except` layer of `run_query` is absorbed.  Alongside the outcome the
embedding also returns the list of query texts issued, in order, so that
"a strategy was never invoked" is expressible. -/
def table_row_counts (scope : Scope) (runq : String → QueryResult) :
    RowCountOutcome × List String :=
  let sql1 := tableStorageSql scope
  let res1 := runq sql1
  let a1 := queryAttempt sql1 res1
  if statusOf res1 == "success" && hasRows res1 then
    (RowCountOutcome.fromQuery res1 [a1], [sql1])
  else
    let sql2 := partitionsSql scope
    let res2 := runq sql2
    let a2 := queryAttempt sql2 res2
    if statusOf res2 == "success" && hasRows res2 then
      (RowCountOutcome.fromQuery res2 [a1, a2], [sql1, sql2])
    else
      let ltSql := listTablesSql scope
      let lt := runq ltSql
      let a3 := stepAttempt "list_tables" lt
      if statusOf lt != "success" || !hasRows lt then
        (RowCountOutcome.listingFailed ((errorMessageOf lt).getD "Failed to list tables")
          [a1, a2, a3], [sql1, sql2, ltSql])
      else
        let body := count_star_loop scope runq ((rowsOf lt).getD [])
        (RowCountOutcome.counted body.1 body.1.length ([a1, a2, a3] ++ body.2.1),
          [sql1, sql2, ltSql] ++ body.2.2)

/-- The insertion-ordered dict `out` of `get_tables_and_columns`: keys are
the raw `r["table_name"]` values, entries the per-table column dicts. -/
abbrev TableColumns := List (PyVal × List PyRow)

/-- Python `t in out` membership for the ordered dict. -/
def dictContains (out : TableColumns) (k : PyVal) : Bool :=
  out.any fun p => decide (p.1 = k)

/-- The current value at key `k` (`[]` when absent — the reading after
`setdefault`). -/
def dictGet (out : TableColumns) (k : PyVal) : List PyRow :=
  ((out.find? fun p => decide (p.1 = k)).map (·.2)).getD []

/-- Python `out.setdefault(t, [])`: insert the key at the end when absent. -/
def dictSetdefault (out : TableColumns) (k : PyVal) : TableColumns :=
  if dictContains out k then out else out ++ [(k, [])]

/-- Python `cols.append(x)` through the reference obtained by `setdefault`. -/
def dictAppendAt (out : TableColumns) (k : PyVal) (x : PyRow) : TableColumns :=
  out.map fun p => if p.1 = k then (p.1, p.2 ++ [x]) else p

/-- The row loop of `get_tables_and_columns`, including its final
`break` test exactly as written in the source:
`if len(out) >= max_tables and t not in out: break` — note that by this
point `t` has already been inserted by `setdefault`. -/
def group_columns (max_tables max_cols : Nat) :
    List PyRow → TableColumns → TableColumns
  | [], out => out
  | r :: rest, out =>
    let t := pyGetD r "table_name"
    let out := dictSetdefault out t
    let out :=
      if (dictGet out t).length < max_cols then
        dictAppendAt out t
          [("column_name", pyGetD r "column_name"), ("data_type", pyGetD r "data_type")]
      else
        out
    if out.length ≥ max_tables && !dictContains out t then
      out
    else
      group_columns max_tables max_cols rest out

/-- Embedding of `bq.get_tables_and_columns`, given the result `res` of
the underlying INFORMATION_SCHEMA.COLUMNS query: an empty mapping unless
`res` has status success, else the grouping loop over `res.get("rows", [])`. -/
def get_tables_and_columns (res : QueryResult)
    (max_tables : Nat := 200) (max_cols : Nat := 60) : TableColumns :=
  if statusOf res != "success" then
    []
  else
    group_columns max_tables max_cols ((rowsOf res).getD []) []

/-- Embedding of `nl2sql._sanitize_sql` with the replacements dict's loop
unrolled in its insertion order (`" from "` first, then `" join "`; per
key first the key itself, then `key.upper()`). -/
def sanitize_sql (scope : Scope) (sql : String) : Except String String :=
  let lowered := pyLower (pyStrip sql)
  if !pyStartsWith lowered "select" then
    Except.error "Generated SQL must be a SELECT query."
  else
    let must := "`" ++ scope.project ++ "." ++ scope.dataset ++ "."
    if !pyContains sql must then
      let from_val := " FROM `" ++ scope.project ++ "." ++ scope.dataset ++ "."
      let join_val := " JOIN `" ++ scope.project ++ "." ++ scope.dataset ++ "."
      let sql_work := sql
      let sql_work := pyReplace sql_work " from " from_val
      let sql_work := pyReplace sql_work (pyUpper " from ") from_val
      let sql_work := pyReplace sql_work " join " join_val
      let sql_work := pyReplace sql_work (pyUpper " join ") join_val
      if !pyContains sql_work must then
        Except.error ("SQL must reference `" ++ scope.project ++ "." ++ scope.dataset ++
          "` with fully-qualified table names.")
      else
        Except.ok sql_work
    else
      Except.ok sql

/-- Outcome of `exec(code, globals_dict, locals_dict)` in the analysis
sandbox, as an oracle value: either an exception is raised, or execution
finishes and `locals_dict` holds the given bindings afterwards. -/
inductive ExecBehavior where
  | raises (msg : String)
  | binds (locals_after : List (String × PyVal))

/-- The result dict of `nl2py._safe_exec_python`: `status=success` with
the `result` and `figure_path` bindings (defaulted to `None`), or
`status=error` with a message. -/
inductive AnalysisOutcome where
  | success (result : PyVal) (figure_path : PyVal)
  | failure (error_message : String)
deriving DecidableEq

/-- Embedding of `nl2py._safe_exec_python`.  Both `try` blocks of the
source convert exceptions into error dicts, so the embedding is a total
function into `AnalysisOutcome`: no exception escapes the run boundary.
`pandasImportError` models the optional failure of `import pandas`;
`execBehavior` models `exec` on the given code and preloaded rows. -/
def safe_exec_python (pandasImportError : Option String)
    (execBehavior : String → List PyRow → ExecBehavior)
    (code : String) (data : List PyRow) : AnalysisOutcome :=
  match pandasImportError with
  | some exc => AnalysisOutcome.failure ("pandas missing: " ++ exc)
  | none =>
    match execBehavior code data with
    | ExecBehavior.raises msg => AnalysisOutcome.failure msg
    | ExecBehavior.binds locals_after =>
      AnalysisOutcome.success (pyGetD locals_after "result")
        (pyGetD locals_after "figure_path")

/-- Scope fixture: `project=p, dataset=d`, cross-dataset disallowed. -/
def scopePD : Scope := { project := "p", dataset := "d", allow_cross_dataset := false }

/-- Scope fixture with mixed-case project and dataset names. -/
def scopeCased : Scope := { project := "Proj", dataset := "DS", allow_cross_dataset := false }

/-- Client oracle for inputs on which no remote call should be reached. -/
def unreachedClient : BQClient := fun _ _ => JobOutcome.raises "unreached"

/-- Oracle answering every query with a success carrying zero rows. -/
def emptySuccessRunq : String → QueryResult := fun sql =>
  QueryResult.success [] 0 [] "job0" sql

/-- Oracle failing exactly the table-listing query and answering everything
else with an empty success. -/
def failingListRunq : String → QueryResult := fun sql =>
  if sql = listTablesSql scopePD then QueryResult.failure "boom" sql
  else QueryResult.success [] 0 [] "job0" sql

/-- A `(table_name, row_count)` row as TABLE_STORAGE returns it. -/
def storageRow : PyRow := [("table_name", PyVal.pyStr "t1"), ("row_count", PyVal.pyInt 5)]

/-- Oracle answering every query with a one-row success. -/
def storageSuccessRunq : String → QueryResult := fun sql =>
  QueryResult.success [storageRow] 1 [] "job1" sql

/-- Result fixture for the INFORMATION_SCHEMA.COLUMNS query: two rows on
two distinct tables. -/
def columnsQueryRes : QueryResult :=
  QueryResult.success
    [[("table_name", PyVal.pyStr "a"), ("column_name", PyVal.pyStr "x"),
      ("data_type", PyVal.pyStr "INT64"), ("ordinal_position", PyVal.pyInt 1)],
     [("table_name", PyVal.pyStr "b"), ("column_name", PyVal.pyStr "y"),
      ("data_type", PyVal.pyStr "STRING"), ("ordinal_position", PyVal.pyInt 1)]]
    2 [] "job2" "columns-sql"

/-- Table-name values of the listed rows that pass the `if not t: continue`
truthiness filter of strategy 3, in order. -/
def truthyTableNames (rows : List PyRow) : List PyVal :=
  rows.filterMap fun r =>
    match pyGet r "table_name" with
    | none => none
    | some tv => if pyTruthy tv then some tv else none

/-- The `(table_name, row_count)` pairs strategy 3 collects: one per
truthy-named table whose COUNT(*) query returns a success with rows. -/
def collectedCounts (scope : Scope) (runq : String → QueryResult)
    (rows : List PyRow) : List PyRow :=
  (truthyTableNames rows).filterMap fun tv =>
    let r3 := runq (countStarSql scope (pyFormat tv))
    if statusOf r3 == "success" && hasRows r3 then
      some [("table_name", tv), ("row_count", firstRowCount r3)]
    else
      none

/-- The first three audit-trail entries of `table_row_counts`: the two
metadata query attempts and the listing step. -/
def baseAttempts (scope : Scope) (runq : String → QueryResult) : List Attempt :=
  [queryAttempt (tableStorageSql scope) (runq (tableStorageSql scope)),
   queryAttempt (partitionsSql scope) (runq (partitionsSql scope)),
   stepAttempt "list_tables" (runq (listTablesSql scope))]

/-- C1, counterexample.  The claim says `run_query` returns a structured
`Failure` result for every query text failing validation; on the code the
validators run before the `try` block, so at the concrete input
`"DROP TABLE t"` the call raises `ValueError` (embedded `Except.error`)
instead of returning a result value. -/
theorem run_query_validator_failure_counterexample :
    run_query scopePD unreachedClient "DROP TABLE t" [] 1000 false =
      Except.error "Only read-only SELECT queries are allowed." := by rfl

/-- C1, amended claim: a query text failing `_ensure_select` or
`_enforce_dataset` makes `run_query` raise that validator's `ValueError`
to its caller (it is not converted to a `Failure` result); only errors
raised by the client inside the `try` block are caught and returned as a
structured `Failure` result. -/
theorem run_query_validator_failures_raise (scope : Scope) (client : BQClient)
    (sql : String) (params : List (String × PyVal)) (k : Int) (d : Bool) :
    (∀ e, ensure_select sql = Except.error e →
      run_query scope client sql params k d = Except.error e) ∧
    (∀ e, ensure_select sql = Except.ok () → enforce_dataset scope sql = Except.error e →
      run_query scope client sql params k d = Except.error e) ∧
    (∀ msg, ensure_select sql = Except.ok () → enforce_dataset scope sql = Except.ok () →
      client sql (build_job_config params d) = JobOutcome.raises msg →
      run_query scope client sql params k d = Except.ok (QueryResult.failure msg sql)) := by
  refine ⟨?_, ?_, ?_⟩
  · intro e he
    simp [run_query, he]
  · intro e h1 h2
    simp [run_query, h1, h2]
  · intro msg h1 h2 h3
    simp [run_query, h1, h2, h3]

/-- C1, witness for the amended claim at concrete inputs: a non-SELECT
text raises the shape error, an unscoped SELECT raises the scope error,
and a client-side error inside the `try` becomes a `Failure` result. -/
theorem run_query_validator_failures_raise_witness :
    run_query scopePD unreachedClient "update t set x = 1" [] 1000 false =
      Except.error "Only read-only SELECT queries are allowed." ∧
    run_query scopePD unreachedClient "select 1" [] 1000 false =
      Except.error "Query must reference dataset `p.d`." ∧
    run_query scopePD (fun _ _ => JobOutcome.raises "job exploded") "select * from `p.d.t`"
      [] 1000 false = Except.ok (QueryResult.failure "job exploded" "select * from `p.d.t`") :=
  ⟨(run_query_validator_failures_raise scopePD unreachedClient "update t set x = 1"
      [] 1000 false).1 "Only read-only SELECT queries are allowed." (by rfl),
   (run_query_validator_failures_raise scopePD unreachedClient "select 1"
      [] 1000 false).2.1 "Query must reference dataset `p.d`." (by rfl) (by rfl),
   (run_query_validator_failures_raise scopePD (fun _ _ => JobOutcome.raises "job exploded")
      "select * from `p.d.t`" [] 1000 false).2.2 "job exploded" (by rfl) (by rfl) (by rfl)⟩

/-- C2, counterexample.  On input `"SELECT * FROM orders LIMIT 10"` with
scope `p.d`, `_sanitize_sql` produces `` "SELECT * FROM `p.d.orders LIMIT 10" ``
— the replacement value opens a backtick but nothing ever closes it — so
the output differs from the claimed `` "SELECT * FROM `p.d.orders` LIMIT 10" ``. -/
theorem sanitize_sql_scenario3_counterexample :
    sanitize_sql scopePD "SELECT * FROM orders LIMIT 10" =
      Except.ok "SELECT * FROM `p.d.orders LIMIT 10" ∧
    "SELECT * FROM `p.d.orders LIMIT 10" ≠ "SELECT * FROM `p.d.orders` LIMIT 10" :=
  ⟨rfl, by decide⟩

/-- C2, amended claim: the sanitizer rewrites the concrete candidate to
`` "SELECT * FROM `p.d.orders LIMIT 10" `` (the qualified prefix is
inserted with an opening backtick and no closing one), and this rewritten
query passes the dataset-scope validation. -/
theorem sanitize_sql_scenario3_amended :
    sanitize_sql scopePD "SELECT * FROM orders LIMIT 10" =
      Except.ok "SELECT * FROM `p.d.orders LIMIT 10" ∧
    enforce_dataset scopePD "SELECT * FROM `p.d.orders LIMIT 10" = Except.ok () :=
  ⟨rfl, rfl⟩

/-- C3, evaluation at the failing input.  With `max_tables := 1` and two
result rows on the distinct tables `a` and `b`, `get_tables_and_columns`
returns a mapping with 2 tables: the source's break test
`len(out) >= max_tables and t not in out` can never fire because
`setdefault` has already inserted `t`, so the documented table cap
(`# enforce table limit`) is not enforced. -/
theorem get_tables_and_columns_table_cap_violated :
    get_tables_and_columns columnsQueryRes 1 60 =
      [(PyVal.pyStr "a", [[("column_name", PyVal.pyStr "x"), ("data_type", PyVal.pyStr "INT64")]]),
       (PyVal.pyStr "b", [[("column_name", PyVal.pyStr "y"), ("data_type", PyVal.pyStr "STRING")]])] ∧
    (get_tables_and_columns columnsQueryRes 1 60).length > 1 :=
  ⟨rfl, by decide⟩

/-- C8: the sanitizer is idempotent on already-qualified input — any text
beginning with "select" after trimming and lower-casing that already
contains the `` `project.dataset. `` prefix is returned unchanged. -/
theorem sanitize_sql_idempotent_on_qualified (scope : Scope) (sql : String)
    (h1 : pyStartsWith (pyLower (pyStrip sql)) "select" = true)
    (h2 : pyContains sql ("`" ++ scope.project ++ "." ++ scope.dataset ++ ".") = true) :
    sanitize_sql scope sql = Except.ok sql := by
  simp [sanitize_sql, h1, h2]

/-- C8, witness: an already fully-qualified SELECT is returned verbatim. -/
theorem sanitize_sql_idempotent_on_qualified_witness :
    sanitize_sql scopePD "SELECT * FROM `p.d.tbl` LIMIT 5" =
      Except.ok "SELECT * FROM `p.d.tbl` LIMIT 5" :=
  sanitize_sql_idempotent_on_qualified scopePD "SELECT * FROM `p.d.tbl` LIMIT 5"
    (by rfl) (by rfl)

/-- C9: every exception raised while the sandbox executes the analysis
code is caught and reported as a `Failure` result carrying the error
message (the embedding of `_safe_exec_python` is a total function, so
nothing propagates past the run boundary), and successful execution that
binds no variable named `result` yields a `Success` whose result value is
`None`, not a failure. -/
theorem safe_exec_python_error_handling :
    (∀ (execB : String → List PyRow → ExecBehavior) (code : String) (data : List PyRow)
        (msg : String),
      execB code data = ExecBehavior.raises msg →
      safe_exec_python none execB code data = AnalysisOutcome.failure msg) ∧
    (∀ (execB : String → List PyRow → ExecBehavior) (code : String) (data : List PyRow)
        (env : List (String × PyVal)),
      execB code data = ExecBehavior.binds env →
      pyGet env "result" = none →
      safe_exec_python none execB code data =
        AnalysisOutcome.success PyVal.pyNone (pyGetD env "figure_path")) := by
  constructor
  · intro execB code data msg h
    simp [safe_exec_python, h]
  · intro execB code data env h hres
    simp [safe_exec_python, h, pyGetD, hres]

/-- C9, witness: a raising execution is reported as a failure with its
message, and an execution binding only `figure_path` succeeds with a
`None` result value. -/
theorem safe_exec_python_error_handling_witness :
    safe_exec_python none (fun _ _ => ExecBehavior.raises "ZeroDivisionError: division by zero")
      "result = 1 / 0" [] = AnalysisOutcome.failure "ZeroDivisionError: division by zero" ∧
    safe_exec_python none
      (fun _ _ => ExecBehavior.binds [("figure_path", PyVal.pyStr "/tmp/fig.png")])
      "figure_path = plot()" [] =
      AnalysisOutcome.success PyVal.pyNone
        (pyGetD [("figure_path", PyVal.pyStr "/tmp/fig.png")] "figure_path") :=
  ⟨safe_exec_python_error_handling.1 (fun _ _ => ExecBehavior.raises "ZeroDivisionError: division by zero")
      "result = 1 / 0" [] "ZeroDivisionError: division by zero" rfl,
   safe_exec_python_error_handling.2 (fun _ _ => ExecBehavior.binds [("figure_path", PyVal.pyStr "/tmp/fig.png")])
      "figure_path = plot()" [] [("figure_path", PyVal.pyStr "/tmp/fig.png")] rfl (by rfl)⟩

/-- C10: the dataset-scope check is case-inconsistent — the same table
reference passes in the configured letter case and is rejected when only
its case differs (both patterns being matched against the raw text),
while an INFORMATION_SCHEMA reference passes in arbitrary letter case
because that pattern is matched against the lower-cased text. -/
theorem enforce_dataset_case_inconsistency :
    enforce_dataset scopeCased "select * from `Proj.DS.t` limit 1" = Except.ok () ∧
    enforce_dataset scopeCased "select * from `proj.ds.t` limit 1" =
      Except.error "Query must reference dataset `Proj.DS`." ∧
    enforce_dataset scopeCased "SELECT * FROM `pRoJ.dS`.InFoRmAtIoN_sChEmA.TABLES" =
      Except.ok () :=
  ⟨rfl, rfl, rfl⟩

/-- C4: `table_row_counts` accepts a strategy result only when it is a
success with at least one row.  When the TABLE_STORAGE query is such, the
operation returns exactly that result (with its single-attempt audit
trail) and issues no further query — PARTITIONS and per-table COUNT(*)
are never invoked; when the TABLE_STORAGE query succeeds with zero rows,
the PARTITIONS query is still issued next. -/
theorem table_row_counts_storage_first (scope : Scope) (runq : String → QueryResult) :
    (statusOf (runq (tableStorageSql scope)) = "success" →
      hasRows (runq (tableStorageSql scope)) = true →
      table_row_counts scope runq =
        (RowCountOutcome.fromQuery (runq (tableStorageSql scope))
          [queryAttempt (tableStorageSql scope) (runq (tableStorageSql scope))],
         [tableStorageSql scope])) ∧
    (statusOf (runq (tableStorageSql scope)) = "success" →
      hasRows (runq (tableStorageSql scope)) = false →
      (table_row_counts scope runq).2.take 2 = [tableStorageSql scope, partitionsSql scope]) := by
  constructor
  · intro h1 h2
    simp [table_row_counts, h1, h2]
  · intro h1 h2
    simp [table_row_counts, h1, h2]
    split
    · rfl
    · split
      · rfl
      · rfl

/-- C4, witness: with an oracle whose TABLE_STORAGE answer has one row the
operation stops after that single query; with an all-empty-success oracle
it still issues the PARTITIONS query second. -/
theorem table_row_counts_storage_first_witness :
    table_row_counts scopePD storageSuccessRunq =
      (RowCountOutcome.fromQuery (storageSuccessRunq (tableStorageSql scopePD))
        [queryAttempt (tableStorageSql scopePD) (storageSuccessRunq (tableStorageSql scopePD))],
       [tableStorageSql scopePD]) ∧
    (table_row_counts scopePD emptySuccessRunq).2.take 2 =
      [tableStorageSql scopePD, partitionsSql scopePD] :=
  ⟨(table_row_counts_storage_first scopePD storageSuccessRunq).1 (by rfl) (by rfl),
   (table_row_counts_storage_first scopePD emptySuccessRunq).2 (by rfl) (by rfl)⟩

/-- C6: for a validated, executed (non-dry-run) query, when
`maximum_rows = k` is positive and the materialized result has more than
`k` rows, the success result carries exactly the first `k` rows in order
and reports `num_rows` as the truncated length (which equals `k`); when
`k` is not positive, the rows are not truncated. -/
theorem run_query_truncation (scope : Scope) (client : BQClient) (sql : String)
    (params : List (String × PyVal)) (k : Int) (total_bytes : Int)
    (schema : List BQField) (result_rows : List PyRow) (job_id : String)
    (hv1 : ensure_select sql = Except.ok ())
    (hv2 : enforce_dataset scope sql = Except.ok ())
    (hc : client sql (build_job_config params false) =
      JobOutcome.completes total_bytes schema result_rows job_id) :
    (0 < k → k.toNat < result_rows.length →
      run_query scope client sql params k false =
        Except.ok (QueryResult.success ((materialize schema result_rows).take k.toNat)
          ((materialize schema result_rows).take k.toNat).length
          (schema.map fun f => (f.name, f.field_type, f.mode)) job_id sql) ∧
      ((materialize schema result_rows).take k.toNat).length = k.toNat) ∧
    (¬ 0 < k →
      run_query scope client sql params k false =
        Except.ok (QueryResult.success (materialize schema result_rows)
          (materialize schema result_rows).length
          (schema.map fun f => (f.name, f.field_type, f.mode)) job_id sql)) := by
  constructor
  · intro hk hlt
    have hcond : k ≠ 0 ∧ k > 0 := ⟨by omega, hk⟩
    have hlen : (materialize schema result_rows).length = result_rows.length := by
      simp [materialize]
    constructor
    · simp [run_query, hv1, hv2, hc, hcond]
    · simp only [List.length_take, hlen]
      omega
  · intro hk
    have hcond : ¬ (k ≠ 0 ∧ k > 0) := fun hcontra => hk hcontra.2
    simp [run_query, hv1, hv2, hc, hcond]

/-- C6, witness: a three-row result truncated to the first two rows with
`num_rows = 2`, and the same result untouched when `maximum_rows = 0`. -/
theorem run_query_truncation_witness :
    (run_query scopePD
        (fun _ _ => JobOutcome.completes 0 [⟨"c", "INT64", none⟩]
          [[("c", PyVal.pyInt 1)], [("c", PyVal.pyInt 2)], [("c", PyVal.pyInt 3)]] "job3")
        "select * from `p.d.t`" [] 2 false =
      Except.ok (QueryResult.success
        ((materialize [⟨"c", "INT64", none⟩]
          [[("c", PyVal.pyInt 1)], [("c", PyVal.pyInt 2)], [("c", PyVal.pyInt 3)]]).take (2 : Int).toNat)
        ((materialize [⟨"c", "INT64", none⟩]
          [[("c", PyVal.pyInt 1)], [("c", PyVal.pyInt 2)], [("c", PyVal.pyInt 3)]]).take (2 : Int).toNat).length
        ([(⟨"c", "INT64", none⟩ : BQField)].map fun f => (f.name, f.field_type, f.mode))
        "job3" "select * from `p.d.t`") ∧
      ((materialize [⟨"c", "INT64", none⟩]
          [[("c", PyVal.pyInt 1)], [("c", PyVal.pyInt 2)], [("c", PyVal.pyInt 3)]]).take (2 : Int).toNat).length =
        (2 : Int).toNat) ∧
    run_query scopePD
        (fun _ _ => JobOutcome.completes 0 [⟨"c", "INT64", none⟩]
          [[("c", PyVal.pyInt 1)], [("c", PyVal.pyInt 2)], [("c", PyVal.pyInt 3)]] "job3")
        "select * from `p.d.t`" [] 0 false =
      Except.ok (QueryResult.success
        (materialize [⟨"c", "INT64", none⟩]
          [[("c", PyVal.pyInt 1)], [("c", PyVal.pyInt 2)], [("c", PyVal.pyInt 3)]])
        (materialize [⟨"c", "INT64", none⟩]
          [[("c", PyVal.pyInt 1)], [("c", PyVal.pyInt 2)], [("c", PyVal.pyInt 3)]]).length
        ([(⟨"c", "INT64", none⟩ : BQField)].map fun f => (f.name, f.field_type, f.mode))
        "job3" "select * from `p.d.t`") :=
  ⟨(run_query_truncation scopePD
      (fun _ _ => JobOutcome.completes 0 [⟨"c", "INT64", none⟩]
        [[("c", PyVal.pyInt 1)], [("c", PyVal.pyInt 2)], [("c", PyVal.pyInt 3)]] "job3")
      "select * from `p.d.t`" [] 2 0 [⟨"c", "INT64", none⟩]
      [[("c", PyVal.pyInt 1)], [("c", PyVal.pyInt 2)], [("c", PyVal.pyInt 3)]] "job3"
      (by rfl) (by rfl) (by rfl)).1 (by decide) (by decide),
   (run_query_truncation scopePD
      (fun _ _ => JobOutcome.completes 0 [⟨"c", "INT64", none⟩]
        [[("c", PyVal.pyInt 1)], [("c", PyVal.pyInt 2)], [("c", PyVal.pyInt 3)]] "job3")
      "select * from `p.d.t`" [] 0 0 [⟨"c", "INT64", none⟩]
      [[("c", PyVal.pyInt 1)], [("c", PyVal.pyInt 2)], [("c", PyVal.pyInt 3)]] "job3"
      (by rfl) (by rfl) (by rfl)).2 (by decide)⟩

/-- C7: `run_query` attaches each parameter entry as a named typed
parameter, inferring the wire type from the value's runtime kind with the
`isinstance` chain in priority order bool, int, float, else string — so a
boolean is tagged BOOL (never INT64 or STRING) and an integer INT64
(never BOOL or STRING), a float FLOAT64, and anything else STRING. -/
theorem run_query_parameter_typing :
    (∀ (params : List (String × PyVal)) (d : Bool), params ≠ [] →
      (build_job_config params d).query_parameters = make_query_parameters params) ∧
    (∀ (name : String) (b : Bool) (rest : List (String × PyVal)),
      make_query_parameters ((name, PyVal.pyBool b) :: rest) =
        ⟨name, BQType.BOOL, PyVal.pyBool b⟩ :: make_query_parameters rest) ∧
    (∀ (name : String) (n : Int) (rest : List (String × PyVal)),
      make_query_parameters ((name, PyVal.pyInt n) :: rest) =
        ⟨name, BQType.INT64, PyVal.pyInt n⟩ :: make_query_parameters rest) ∧
    (∀ (name : String) (rest : List (String × PyVal)),
      make_query_parameters ((name, PyVal.pyFloat) :: rest) =
        ⟨name, BQType.FLOAT64, PyVal.pyFloat⟩ :: make_query_parameters rest) ∧
    (∀ (name : String) (s : String) (rest : List (String × PyVal)),
      make_query_parameters ((name, PyVal.pyStr s) :: rest) =
        ⟨name, BQType.STRING, PyVal.pyStr s⟩ :: make_query_parameters rest) ∧
    (∀ (name : String) (rest : List (String × PyVal)),
      make_query_parameters ((name, PyVal.pyNone) :: rest) =
        ⟨name, BQType.STRING, PyVal.pyNone⟩ :: make_query_parameters rest) ∧
    (∀ (b : Bool), infer_bq_type (PyVal.pyBool b) ≠ BQType.INT64 ∧
      infer_bq_type (PyVal.pyBool b) ≠ BQType.STRING) ∧
    (∀ (n : Int), infer_bq_type (PyVal.pyInt n) ≠ BQType.BOOL ∧
      infer_bq_type (PyVal.pyInt n) ≠ BQType.STRING) := by
  refine ⟨?_, fun name b rest => rfl, fun name n rest => rfl, fun name rest => rfl,
    fun name s rest => rfl, fun name rest => rfl, fun b => ⟨?_, ?_⟩, fun n => ⟨?_, ?_⟩⟩
  · intro params d hne
    cases params with
    | nil => exact absurd rfl hne
    | cons p l => cases d <;> rfl
  · intro h
    simp [infer_bq_type, isinstance_bool] at h
  · intro h
    simp [infer_bq_type, isinstance_bool] at h
  · intro h
    simp [infer_bq_type, isinstance_bool, isinstance_int] at h
  · intro h
    simp [infer_bq_type, isinstance_bool, isinstance_int] at h

/-- C7, witness: a two-entry parameter mapping is attached to the job
configuration as its typed parameter list. -/
theorem run_query_parameter_typing_witness :
    (build_job_config [("flag", PyVal.pyBool true), ("n", PyVal.pyInt 7)] false).query_parameters =
      make_query_parameters [("flag", PyVal.pyBool true), ("n", PyVal.pyInt 7)] :=
  run_query_parameter_typing.1 [("flag", PyVal.pyBool true), ("n", PyVal.pyInt 7)] false
    (by decide)

/-- Characterization of the strategy-3 loop: it collects exactly
`collectedCounts`, appends one attempt per truthy-named table, and issues
exactly the per-table COUNT(*) query texts, in listing order. -/
theorem count_star_loop_eq (scope : Scope) (runq : String → QueryResult)
    (rows : List PyRow) :
    count_star_loop scope runq rows =
      (collectedCounts scope runq rows,
       (truthyTableNames rows).map (fun tv =>
         queryAttempt (countStarSql scope (pyFormat tv))
           (runq (countStarSql scope (pyFormat tv)))),
       (truthyTableNames rows).map (fun tv => countStarSql scope (pyFormat tv))) := by
  induction rows with
  | nil => rfl
  | cons r rest ih =>
    cases hg : pyGet r "table_name" with
    | none =>
      simp [count_star_loop, truthyTableNames, collectedCounts, hg, List.filterMap_cons] at ih ⊢
      exact ih
    | some tv =>
      cases ht : pyTruthy tv with
      | false =>
        simp [count_star_loop, truthyTableNames, collectedCounts, hg, ht,
          List.filterMap_cons] at ih ⊢
        exact ih
      | true =>
        by_cases hst : statusOf (runq (countStarSql scope (pyFormat tv))) = "success"
        · by_cases hr : hasRows (runq (countStarSql scope (pyFormat tv))) = true
          · simp [count_star_loop, truthyTableNames, collectedCounts, hg, ht, hst, hr,
              List.filterMap_cons, ih]
          · simp [count_star_loop, truthyTableNames, collectedCounts, hg, ht, hst, hr,
              List.filterMap_cons, ih]
        · simp [count_star_loop, truthyTableNames, collectedCounts, hg, ht, hst,
            List.filterMap_cons, ih]

/-- Reduction of `statusOf` on an error result. -/
theorem statusOf_failure (msg s : String) : statusOf (QueryResult.failure msg s) = "error" := rfl

/-- Reduction of `statusOf` on a success result. -/
theorem statusOf_success (rows : List PyRow) (n : Nat)
    (sch : List (String × String × Option String)) (j s : String) :
    statusOf (QueryResult.success rows n sch j s) = "success" := rfl

/-- Reduction of `errorMessageOf` on an error result. -/
theorem errorMessageOf_failure (msg s : String) :
    errorMessageOf (QueryResult.failure msg s) = some msg := rfl

/-- Reduction of `errorMessageOf` on a success result. -/
theorem errorMessageOf_success (rows : List PyRow) (n : Nat)
    (sch : List (String × String × Option String)) (j s : String) :
    errorMessageOf (QueryResult.success rows n sch j s) = none := rfl

/-- Reduction of `errorMessageOf` on a dry-run success result. -/
theorem errorMessageOf_drySuccess (b : Int) (s : String) :
    errorMessageOf (QueryResult.drySuccess b s) = none := rfl

/-- Reduction of `hasRows` on an error result. -/
theorem hasRows_failure (msg s : String) : hasRows (QueryResult.failure msg s) = false := rfl

/-- Reduction of `hasRows` on a success result. -/
theorem hasRows_success (rows : List PyRow) (n : Nat)
    (sch : List (String × String × Option String)) (j s : String) :
    hasRows (QueryResult.success rows n sch j s) = !rows.isEmpty := rfl

/-- Reduction of `hasRows` on a dry-run success result. -/
theorem hasRows_drySuccess (b : Int) (s : String) :
    hasRows (QueryResult.drySuccess b s) = false := rfl

/-- Reduction of `rowsOf` on a success result. -/
theorem rowsOf_success (rows : List PyRow) (n : Nat)
    (sch : List (String × String × Option String)) (j s : String) :
    rowsOf (QueryResult.success rows n sch j s) = some rows := rfl

/-- C5, counterexample.  The claim says the whole operation fails "when
(and only when) the table listing itself fails"; on the code, an oracle
whose listing query SUCCEEDS with zero rows still makes `table_row_counts`
return an error result (with the fallback message), refuting the "only
when" direction. -/
theorem table_row_counts_listing_counterexample :
    statusOf (emptySuccessRunq (listTablesSql scopePD)) = "success" ∧
    (table_row_counts scopePD emptySuccessRunq).1 =
      RowCountOutcome.listingFailed "Failed to list tables"
        (baseAttempts scopePD emptySuccessRunq) :=
  ⟨rfl, rfl⟩

/-- C5, amended claim: after strategies 1 and 2 are not accepted, the
whole operation returns a Failure reporting the listing error whenever
the table listing fails, and ALSO returns a Failure (with the fallback
message "Failed to list tables") when the listing succeeds but returns no
rows; only when the listing succeeds with at least one row does the
operation enumerate the listed tables, issue one SELECT COUNT(*) per
truthy-named table, and collect the `(table_name, row_count)` pairs. -/
theorem table_row_counts_listing_stage (scope : Scope) (runq : String → QueryResult)
    (hs1 : ¬(statusOf (runq (tableStorageSql scope)) = "success" ∧
        hasRows (runq (tableStorageSql scope)) = true))
    (hs2 : ¬(statusOf (runq (partitionsSql scope)) = "success" ∧
        hasRows (runq (partitionsSql scope)) = true)) :
    (∀ msg errSql, runq (listTablesSql scope) = QueryResult.failure msg errSql →
      table_row_counts scope runq =
        (RowCountOutcome.listingFailed msg (baseAttempts scope runq),
         [tableStorageSql scope, partitionsSql scope, listTablesSql scope])) ∧
    (statusOf (runq (listTablesSql scope)) = "success" →
      hasRows (runq (listTablesSql scope)) = false →
      table_row_counts scope runq =
        (RowCountOutcome.listingFailed "Failed to list tables" (baseAttempts scope runq),
         [tableStorageSql scope, partitionsSql scope, listTablesSql scope])) ∧
    (statusOf (runq (listTablesSql scope)) = "success" →
      hasRows (runq (listTablesSql scope)) = true →
      table_row_counts scope runq =
        (RowCountOutcome.counted
          (collectedCounts scope runq ((rowsOf (runq (listTablesSql scope))).getD []))
          (collectedCounts scope runq ((rowsOf (runq (listTablesSql scope))).getD [])).length
          (baseAttempts scope runq ++
            (truthyTableNames ((rowsOf (runq (listTablesSql scope))).getD [])).map
              (fun tv => queryAttempt (countStarSql scope (pyFormat tv))
                (runq (countStarSql scope (pyFormat tv))))),
         [tableStorageSql scope, partitionsSql scope, listTablesSql scope] ++
           (truthyTableNames ((rowsOf (runq (listTablesSql scope))).getD [])).map
             (fun tv => countStarSql scope (pyFormat tv)))) := by
  refine ⟨?_, ?_, ?_⟩
  · intro msg errSql hlt
    simp [table_row_counts, hs1, hs2, hlt, statusOf_failure, errorMessageOf_failure,
      hasRows_failure, baseAttempts]
  · intro hst hrows
    cases hval : runq (listTablesSql scope) with
    | success rows num_rows sch job_id s =>
      rw [hval] at hrows
      rw [hasRows_success] at hrows
      simp at hrows
      simp [table_row_counts, hs1, hs2, hval, hrows, statusOf_success,
        errorMessageOf_success, hasRows_success, baseAttempts]
    | drySuccess b s =>
      simp [table_row_counts, hs1, hs2, hval, errorMessageOf_drySuccess,
        hasRows_drySuccess, baseAttempts]
    | failure m s =>
      rw [hval, statusOf_failure] at hst
      simp at hst
  · intro hst hrows
    cases hval : runq (listTablesSql scope) with
    | success rows num_rows sch job_id s =>
      rw [hval] at hrows
      rw [hasRows_success] at hrows
      simp at hrows
      simp [table_row_counts, hs1, hs2, hval, hrows, statusOf_success,
        errorMessageOf_success, hasRows_success, rowsOf_success, baseAttempts,
        count_star_loop_eq]
    | drySuccess b s =>
      rw [hval, hasRows_drySuccess] at hrows
      simp at hrows
    | failure m s =>
      rw [hval, statusOf_failure] at hst
      simp at hst

/-- C5, witness for the amended claim: with an oracle failing exactly the
listing query (after empty-success metadata strategies), the operation
returns the listing error. -/
theorem table_row_counts_listing_stage_witness :
    table_row_counts scopePD failingListRunq =
      (RowCountOutcome.listingFailed "boom" (baseAttempts scopePD failingListRunq),
       [tableStorageSql scopePD, partitionsSql scopePD, listTablesSql scopePD]) :=
  (table_row_counts_listing_stage scopePD failingListRunq (by decide) (by decide)).1 "boom"
    (listTablesSql scopePD) (by rfl)

end DataAgent
